import Mathlib

/-!
# Verification of the vehicle-tracking telemetry core

Shallow embedding (over ℚ) of the repository's Kalman filter
(`backend/services/fusion/kalman_filter.py`), the fusion service endpoints
(`backend/services/fusion/service.py`), the ingestion service
(`backend/services/ingestion/service.py`), the Redis cache/pub-sub layer
(`database/redis_manager.py`) and the WebSocket broadcast manager
(`backend/api_gateway/main.py`), together with theorems settling the
specification claims about them.

Machine floats are modelled by exact rationals; `np.linalg.inv`, which
raises `LinAlgError` on a singular matrix, is modelled by an `Option`
that is `none` exactly when the determinant vanishes.
-/

set_option maxHeartbeats 1000000

namespace VehicleTracking

open scoped Matrix

/-- 4×4 rational matrices (state covariance / transition matrices). -/
abbrev Mat4 : Type := Matrix (Fin 4) (Fin 4) ℚ

/-- 2×2 rational matrices (innovation covariance / measurement noise). -/
abbrev Mat2 : Type := Matrix (Fin 2) (Fin 2) ℚ

/-- 2×4 rational matrices (the measurement matrix H). -/
abbrev Mat24 : Type := Matrix (Fin 2) (Fin 4) ℚ

/-- 4×2 rational matrices (the Kalman gain K). -/
abbrev Mat42 : Type := Matrix (Fin 4) (Fin 2) ℚ

/-- State transition matrix `A` (constant-velocity model with dt = 1):
position advances by velocity, velocity unchanged. -/
def A : Mat4 := !![1, 0, 1, 0; 0, 1, 0, 1; 0, 0, 1, 0; 0, 0, 0, 1]

/-- Measurement matrix `H`: only position (lat, lon) is observed. -/
def H : Mat24 := !![1, 0, 0, 0; 0, 1, 0, 0]

/-- `KalmanFilter` instance state: the constructor parameters
(`process_noise`, `measurement_noise`) plus the mutable state
(state vector `x = [lat, lon, v_lat, v_lon]`, covariance `P`,
initialization flag). -/
@[ext]
structure KalmanFilter where
  process_noise : ℚ
  measurement_noise : ℚ
  x : Fin 4 → ℚ
  P : Mat4
  initialized : Bool

/-- `KalmanFilter.__init__`: P = I, x = 0, initialized = False. -/
def KalmanFilter.mkNew (process_noise measurement_noise : ℚ) : KalmanFilter :=
  { process_noise := process_noise
    measurement_noise := measurement_noise
    x := 0
    P := 1
    initialized := false }

/-- Process-noise covariance `Q = np.eye(4) * process_noise`. -/
def KalmanFilter.Q (f : KalmanFilter) : Mat4 := f.process_noise • (1 : Mat4)

/-- Measurement-noise covariance `R = np.eye(2) * measurement_noise`. -/
def KalmanFilter.R (f : KalmanFilter) : Mat2 := f.measurement_noise • (1 : Mat2)

/-- `predict()`: x ← A·x, P ← A·P·Aᵀ + Q (the Python method also returns
x[:2], which `process` discards). -/
def KalmanFilter.predict (f : KalmanFilter) : KalmanFilter :=
  { f with x := A *ᵥ f.x, P := A * f.P * Aᵀ + f.Q }

/-- Determinant of a 2×2 matrix, written out. -/
def det2 (S : Mat2) : ℚ := S 0 0 * S 1 1 - S 0 1 * S 1 0

/-- Exact 2×2 matrix inverse; models `np.linalg.inv` applied to the 2×2
innovation covariance (meaningful only when `det2 S ≠ 0`). -/
def inv2 (S : Mat2) : Mat2 :=
  (det2 S)⁻¹ • !![S 1 1, -(S 0 1); -(S 1 0), S 0 0]

/-- Innovation covariance `S = H·P·Hᵀ + R`. -/
def KalmanFilter.innovationCov (f : KalmanFilter) : Mat2 := H * f.P * Hᵀ + f.R

/-- Kalman gain `K = P·Hᵀ·S⁻¹`. -/
def KalmanFilter.gain (f : KalmanFilter) : Mat42 :=
  f.P * Hᵀ * inv2 f.innovationCov

/-- `update(measurement)`.  On the first measurement: x[:2] ← z, x[2:] ← 0,
initialized ← True, gain computation bypassed.  Otherwise the standard
correction x ← x + K·(z − H·x), P ← (I − K·H)·P; `np.linalg.inv(S)` raises
`LinAlgError` on a singular `S`, modelled as `none`. -/
def KalmanFilter.update (f : KalmanFilter) (z : Fin 2 → ℚ) : Option KalmanFilter :=
  if f.initialized = false then
    some { f with x := ![z 0, z 1, 0, 0], initialized := true }
  else if det2 f.innovationCov = 0 then none
  else
    some { f with x := f.x + f.gain *ᵥ (z - H *ᵥ f.x),
                  P := (1 - f.gain * H) * f.P, initialized := true }

/-- `process(measurement)`: predict then update. -/
def KalmanFilter.process (f : KalmanFilter) (z : Fin 2 → ℚ) : Option KalmanFilter :=
  f.predict.update z

/-- The position (lat, lon) half of the state vector — what `update` and
`process` return to the caller (`self.x[:2]`). -/
def KalmanFilter.pos (f : KalmanFilter) : ℚ × ℚ := (f.x 0, f.x 1)

/-- One call against a filter: `predict()` or `update(measurement)`. -/
inductive FilterOp where
  | predictOp : FilterOp
  | updateOp (z : Fin 2 → ℚ) : FilterOp

/-- Apply one call to a filter. -/
def applyOp (f : KalmanFilter) : FilterOp → Option KalmanFilter
  | .predictOp => some f.predict
  | .updateOp z => f.update z

/-- Run a finite sequence of `predict`/`update` calls. -/
def runOps (f : KalmanFilter) : List FilterOp → Option KalmanFilter
  | [] => some f
  | op :: ops => (applyOp f op).bind (fun g => runOps g ops)

/-- The filter-state invariant: nonnegative process noise, positive
measurement noise, positive-semidefinite covariance.  Every filter the
repository constructs satisfies the noise conditions
(defaults 0.001/0.001 in ingestion, 0.0001/0.01 in the fusion service). -/
def GoodFilter (f : KalmanFilter) : Prop :=
  0 ≤ f.process_noise ∧ 0 < f.measurement_noise ∧ f.P.PosSemidef

/-! ## Fusion service (`backend/services/fusion/service.py`) -/

/-- The module-level `vehicle_filters` dict: vehicle_id (a string) to its
filter instance. -/
def FusionState : Type := String → Option KalmanFilter

/-- The dict at process start: no filters. -/
def emptyFusionState : FusionState := fun _ => none

/-- The lookup-or-create step of `correct_position`: reuse the stored
filter, or insert `KalmanFilter(process_noise=0.0001, measurement_noise=0.01)`
on first sighting. -/
def getOrCreateFilter (st : FusionState) (vid : String) : KalmanFilter × FusionState :=
  match st vid with
  | some kf => (kf, st)
  | none =>
    let kf := KalmanFilter.mkNew (1/10000) (1/100)
    (kf, fun v => if v = vid then some kf else st v)

/-- The `/correct` endpoint: get-or-create the vehicle's filter, run
`process`, return the corrected GeoPoint.  A `LinAlgError` escaping
`process` is an error response; the dict then holds the filter as mutated
in place by the `predict` half. -/
def correct_position (st : FusionState) (vid : String) (z : Fin 2 → ℚ) :
    Except Unit (ℚ × ℚ) × FusionState :=
  let pair := getOrCreateFilter st vid
  match (pair.1).process z with
  | none =>
      (.error (), fun v => if v = vid then some (pair.1).predict else pair.2 v)
  | some kf1 =>
      (.ok kf1.pos, fun v => if v = vid then some kf1 else pair.2 v)

/-- The `/reset/{vehicle_id}` endpoint: delete the filter if present and
answer ok; otherwise raise `HTTPException(status_code=404)`. -/
def reset_filter (st : FusionState) (vid : String) : Except ℕ String × FusionState :=
  if (st vid).isSome then
    (.ok vid, fun v => if v = vid then none else st v)
  else
    (.error 404, st)

/-! ## Ingestion service (`backend/services/ingestion/service.py`) -/

/-- Validated telemetry record (the `TelemetryData` pydantic model). -/
structure TelemetryData where
  vehicle_id : ℕ
  latitude : ℚ
  longitude : ℚ
  speed : Option ℚ
  direction : Option ℚ
  accuracy : Option ℚ
  altitude : Option ℚ
  acceleration : Option ℚ
  fuel_level : Option ℚ
  timestamp : Option ℚ

/-- An incoming request body before pydantic validation: required fields
may be absent, numeric fields unchecked. -/
structure RawTelemetry where
  vehicle_id : Option ℕ
  latitude : Option ℚ
  longitude : Option ℚ
  speed : Option ℚ
  direction : Option ℚ
  accuracy : Option ℚ
  altitude : Option ℚ
  acceleration : Option ℚ
  fuel_level : Option ℚ
  timestamp : Option ℚ

/-- A pydantic validation failure: a missing required field or a field
constraint violation. -/
inductive ValidationError where
  | missing (field : String)
  | outOfRange (field : String)
deriving DecidableEq

/-- Bool-valued constraint check for the optional `speed` field (`ge=0`). -/
def speedOk : Option ℚ → Bool
  | none => true
  | some s => decide (0 ≤ s)

/-- Bool-valued constraint check for the optional `direction` field
(`ge=0, le=360`). -/
def directionOk : Option ℚ → Bool
  | none => true
  | some d => decide (0 ≤ d ∧ d ≤ 360)

/-- Bool-valued constraint check for the optional `fuel_level` field
(`ge=0, le=100`). -/
def fuelOk : Option ℚ → Bool
  | none => true
  | some l => decide (0 ≤ l ∧ l ≤ 100)

/-- Pydantic validation of `TelemetryData`: required fields `vehicle_id`,
`latitude` (−90 ≤ lat ≤ 90), `longitude` (−180 ≤ lon ≤ 180), plus the
optional-field constraints.  Runs before the endpoint handler. -/
def validateTelemetry (raw : RawTelemetry) : Except ValidationError TelemetryData :=
  match raw.vehicle_id with
  | none => .error (.missing "vehicle_id")
  | some vid =>
  match raw.latitude with
  | none => .error (.missing "latitude")
  | some lat =>
  match raw.longitude with
  | none => .error (.missing "longitude")
  | some lon =>
  if lat < -90 ∨ 90 < lat then .error (.outOfRange "latitude")
  else if lon < -180 ∨ 180 < lon then .error (.outOfRange "longitude")
  else if speedOk raw.speed = false then .error (.outOfRange "speed")
  else if directionOk raw.direction = false then .error (.outOfRange "direction")
  else if fuelOk raw.fuel_level = false then .error (.outOfRange "fuel_level")
  else .ok ⟨vid, lat, lon, raw.speed, raw.direction, raw.accuracy, raw.altitude,
            raw.acceleration, raw.fuel_level, raw.timestamp⟩

/-- A `LocationTracking` row written to PostgreSQL (single-record path
stores the smoothed position; bulk path stores the raw one). -/
structure LocationRecord where
  vehicle_id : ℕ
  latitude : ℚ
  longitude : ℚ
  speed : Option ℚ
  direction : Option ℚ
  accuracy : Option ℚ
  altitude : Option ℚ
  timestamp : ℚ

/-- An InfluxDB telemetry point (always the raw position). -/
structure InfluxPoint where
  vehicle_id : ℕ
  latitude : ℚ
  longitude : ℚ
  timestamp : ℚ

/-- The `location_data` dict cached in Redis and published on pub/sub. -/
structure LocationData where
  latitude : ℚ
  longitude : ℚ
  speed : Option ℚ
  direction : Option ℚ
  timestamp : ℚ
  vehicle_number : String

/-- A Redis pub/sub channel: `vehicle:updates:{id}` or `vehicle:updates:all`. -/
inductive Channel where
  | vehicle (vehicle_id : ℕ) : Channel
  | all : Channel
deriving DecidableEq

/-- One `publish` call observed on the Redis broker. -/
structure PublishEvent where
  channel : Channel
  vehicle_id : ℕ
  data : LocationData

/-- Combined state touched by the ingestion endpoints: the `vehicles`
table (id ↦ vehicle_number), the module-level `kf_storage` dict, the
PostgreSQL `location_tracking` rows, the InfluxDB points, the Redis
location cache and the pub/sub history. -/
structure IngestState where
  db : ℕ → Option String
  kf_storage : ℕ → Option KalmanFilter
  postgres : List LocationRecord
  influx : List InfluxPoint
  redisCache : ℕ → Option LocationData
  published : List PublishEvent

/-- HTTP-level failures of `ingest_telemetry`: 404 vehicle-not-found, or
an uncaught numeric error from the filter (a 500). -/
inductive IngestError where
  | notFound (vehicle_id : ℕ) : IngestError
  | numeric : IngestError
deriving DecidableEq

/-- The success payload of `ingest_telemetry` (track_id and timestamp). -/
structure IngestResponse where
  track_id : ℕ
  timestamp : ℚ
deriving DecidableEq

/-- The filter `ingest_telemetry` operates on: the stored one, or a fresh
`KalmanFilter()` (defaults 0.001/0.001) inserted on first sighting. -/
def lookupOrNewFilter (st : IngestState) (vid : ℕ) : KalmanFilter :=
  match st.kf_storage vid with
  | some kf => kf
  | none => KalmanFilter.mkNew (1/1000) (1/1000)

/-- `POST /telemetry` (`ingest_telemetry`): verify the vehicle exists
(404 otherwise, before any other effect); get-or-create the vehicle's
filter; `process` the measurement; write the smoothed position to
PostgreSQL; write the raw position to InfluxDB; cache the raw
`location_data` in Redis and publish it to the per-vehicle and global
channels.  `now` stands for `datetime.utcnow()`. -/
def ingest_telemetry (st : IngestState) (t : TelemetryData) (now : ℚ) :
    Except IngestError IngestResponse × IngestState :=
  match st.db t.vehicle_id with
  | none => (.error (.notFound t.vehicle_id), st)
  | some vehicle_number =>
    let ts := t.timestamp.getD now
    let kf0 := lookupOrNewFilter st t.vehicle_id
    match kf0.process ![t.latitude, t.longitude] with
    | none =>
        (.error .numeric,
         { st with kf_storage :=
            fun v => if v = t.vehicle_id then some kf0.predict else st.kf_storage v })
    | some kf1 =>
        let loc : LocationData :=
          { latitude := t.latitude, longitude := t.longitude, speed := t.speed,
            direction := t.direction, timestamp := ts, vehicle_number := vehicle_number }
        let pgRecord : LocationRecord :=
          { vehicle_id := t.vehicle_id, latitude := kf1.x 0, longitude := kf1.x 1,
            speed := t.speed, direction := t.direction, accuracy := t.accuracy,
            altitude := t.altitude, timestamp := ts }
        (.ok { track_id := st.postgres.length, timestamp := ts },
         { st with
            kf_storage := fun v => if v = t.vehicle_id then some kf1 else st.kf_storage v
            postgres := st.postgres ++ [pgRecord]
            influx := st.influx ++ [⟨t.vehicle_id, t.latitude, t.longitude, ts⟩]
            redisCache := fun v => if v = t.vehicle_id then some loc else st.redisCache v
            published := st.published ++
              [⟨Channel.vehicle t.vehicle_id, t.vehicle_id, loc⟩,
               ⟨Channel.all, t.vehicle_id, loc⟩] })

/-- Validation composed with the handler, as FastAPI runs them: an invalid
body never reaches `ingest_telemetry`. -/
def ingest_raw (st : IngestState) (raw : RawTelemetry) (now : ℚ) :
    Except (ValidationError ⊕ IngestError) IngestResponse × IngestState :=
  match validateTelemetry raw with
  | .error e => (.error (.inl e), st)
  | .ok t =>
    match ingest_telemetry st t now with
    | (.error e, st1) => (.error (.inr e), st1)
    | (.ok r, st1) => (.ok r, st1)

/-- The error string appended by the bulk endpoint for an unknown vehicle. -/
def notFoundMsg (vid : ℕ) : String := "Vehicle " ++ toString vid ++ " not found"

/-- One iteration of the `ingest_bulk_telemetry` loop: skip (recording an
error) if the vehicle is unknown; otherwise store the RAW position to
PostgreSQL and InfluxDB and bump the count.  No filter, cache, or publish
step exists on this path. -/
def bulkStep (now : ℚ) (acc : ℕ × List String × IngestState) (t : TelemetryData) :
    ℕ × List String × IngestState :=
  let s := acc.2.2
  match s.db t.vehicle_id with
  | none => (acc.1, acc.2.1 ++ [notFoundMsg t.vehicle_id], s)
  | some _ =>
    let ts := t.timestamp.getD now
    let pgRecord : LocationRecord :=
      { vehicle_id := t.vehicle_id, latitude := t.latitude, longitude := t.longitude,
        speed := t.speed, direction := t.direction, accuracy := t.accuracy,
        altitude := t.altitude, timestamp := ts }
    (acc.1 + 1, acc.2.1,
     { s with postgres := s.postgres ++ [pgRecord],
              influx := s.influx ++ [⟨t.vehicle_id, t.latitude, t.longitude, ts⟩] })

/-- The aggregate response of `POST /telemetry/bulk`. -/
structure BulkResult where
  ingested_count : ℕ
  total_records : ℕ
  errors : List String
deriving DecidableEq

/-- `POST /telemetry/bulk` (`ingest_bulk_telemetry`): per-item loop with a
try/except that records an error string and continues. -/
def ingest_bulk_telemetry (st : IngestState) (items : List TelemetryData) (now : ℚ) :
    BulkResult × IngestState :=
  let r := items.foldl (bulkStep now) (0, [], st)
  ({ ingested_count := r.1, total_records := items.length, errors := r.2.1 }, r.2.2)

/-! ## WebSocket broadcast (`backend/api_gateway/main.py`, ConnectionManager) -/

/-- A WebSocket connection in `active_connections`; `healthy` says whether
`send_json` succeeds or raises for this connection. -/
structure Subscriber where
  id : ℕ
  healthy : Bool
deriving DecidableEq

/-- `ConnectionManager.broadcast(message)`: iterate over
`active_connections`, `send_json` inside `try:` with `except Exception:
pass`.  Returns the deliveries made and the connection list afterwards
(the loop never modifies the list). -/
def broadcast (conns : List Subscriber) (msg : String) :
    List (ℕ × String) × List Subscriber :=
  (conns.foldl (fun delivered c => if c.healthy then delivered ++ [(c.id, msg)] else delivered) [],
   conns)

/-! ## Concrete sample scenario (spec §8: entity 7 in Mumbai) -/

/-- First raw measurement: (19.0760, 72.8777). -/
def z1 : Fin 2 → ℚ := ![190760/10000, 728777/10000]

/-- Second raw measurement: (19.0761, 72.8778). -/
def z2 : Fin 2 → ℚ := ![190761/10000, 728778/10000]

/-- A fresh default filter (`KalmanFilter()`), as the ingestion registry
creates for a first-seen vehicle. -/
def sampleFilter0 : KalmanFilter := KalmanFilter.mkNew (1/1000) (1/1000)

/-- The covariance after the first `predict` (= A·Aᵀ + Q). -/
def sampleP1 : Mat4 :=
  !![2001/1000, 0, 1, 0;
     0, 2001/1000, 0, 1;
     1, 0, 1001/1000, 0;
     0, 1, 0, 1001/1000]

/-- The filter state after the first `process(z1)` call. -/
def sampleFilter1 : KalmanFilter :=
  { process_noise := 1/1000, measurement_noise := 1/1000,
    x := ![190760/10000, 728777/10000, 0, 0], P := sampleP1, initialized := true }

/-- Result of the first sample `process` call. -/
def sampleStep1 : Option KalmanFilter := sampleFilter0.process z1

/-- Result of the second sample `process` call. -/
def sampleStep2 : Option KalmanFilter := sampleStep1.bind (fun f => f.process z2)

/-- The vehicles table with just vehicle 7 registered. -/
def sampleDb : ℕ → Option String := fun v => if v = 7 then some "MH-01" else none

/-- A fresh ingestion state whose database knows vehicle 7. -/
def sampleIngestState : IngestState :=
  { db := sampleDb, kf_storage := fun _ => none, postgres := [], influx := [],
    redisCache := fun _ => none, published := [] }

/-- The first sample telemetry record for vehicle 7. -/
def sampleT1 : TelemetryData :=
  ⟨7, 190760/10000, 728777/10000, none, none, none, none, none, none, none⟩

/-- The second sample telemetry record for vehicle 7. -/
def sampleT2 : TelemetryData :=
  ⟨7, 190761/10000, 728778/10000, none, none, none, none, none, none, none⟩

/-- Ingestion state after ingesting `sampleT1` at time 0. -/
def stateAfter1 : IngestState := (ingest_telemetry sampleIngestState sampleT1 0).2

/-- Ingestion state after then ingesting `sampleT2` at time 1. -/
def stateAfter2 : IngestState := (ingest_telemetry stateAfter1 sampleT2 1).2

/-- The covariance after the second `predict` (= A·P1·Aᵀ + Q). -/
def sampleP2 : Mat4 :=
  !![5003/1000, 0, 2001/1000, 0;
     0, 5003/1000, 0, 2001/1000;
     2001/1000, 0, 1002/1000, 0;
     0, 2001/1000, 0, 1002/1000]

/-- A fusion-service dict holding one filter, for vehicle "veh-7". -/
def oneFilterState : FusionState :=
  fun v => if v = "veh-7" then some (KalmanFilter.mkNew (1/10000) (1/100)) else none

/-- A request body whose latitude 100 is out of range. -/
def badRaw : RawTelemetry :=
  ⟨some 7, some 100, some 0, none, none, none, none, none, none, none⟩

/-- A telemetry record for a vehicle id (99) absent from the database. -/
def sampleT99 : TelemetryData :=
  ⟨99, 0, 0, none, none, none, none, none, none, none⟩

/-- An initialized filter state with a covariance that makes the innovation
covariance S exactly singular (S = 0): P's position block is −R. -/
def degenerateFilter : KalmanFilter :=
  { process_noise := 1/1000, measurement_noise := 1/1000,
    x := ![0, 0, 0, 0],
    P := !![-1/1000, 0, 0, 0; 0, -1/1000, 0, 0; 0, 0, 0, 0; 0, 0, 0, 0],
    initialized := true }

/-! ## Helper lemmas -/

lemma posSemidef_conj {l m : Type*} [Fintype l] [Fintype m]
    {M : Matrix m m ℚ} (hM : M.PosSemidef) (B : Matrix l m ℚ) :
    (B * M * Bᵀ).PosSemidef := by
  have h := hM.mul_mul_conjTranspose_same B
  rwa [Matrix.conjTranspose_eq_transpose_of_trivial] at h

lemma posSemidef_smul_one {n : Type*} [Fintype n] [DecidableEq n] {a : ℚ} (ha : 0 ≤ a) :
    (a • (1 : Matrix n n ℚ)).PosSemidef := by
  rw [Matrix.smul_one_eq_diagonal]
  exact Matrix.PosSemidef.diagonal fun _ => ha

lemma posDef_smul_one {n : Type*} [Fintype n] [DecidableEq n] {a : ℚ} (ha : 0 < a) :
    (a • (1 : Matrix n n ℚ)).PosDef := by
  rw [Matrix.smul_one_eq_diagonal]
  exact Matrix.PosDef.diagonal fun _ => ha

/-- A positive-definite 2×2 matrix has positive determinant: evaluate the
quadratic form at `(1,0)` and at `(S 0 1, −S 0 0)`. -/
lemma posDef_det2_pos {S : Mat2} (hS : S.PosDef) : 0 < det2 S := by
  have h00 : 0 < S 0 0 := by
    have hx : (![1, 0] : Fin 2 → ℚ) ≠ 0 := by
      intro h
      have h0 := congrFun h 0
      norm_num at h0
    have h := hS.2 ![1, 0] hx
    simpa [Matrix.dotProduct, Matrix.mulVec, Fin.sum_univ_two] using h
  have hx2 : (![S 0 1, -(S 0 0)] : Fin 2 → ℚ) ≠ 0 := by
    intro h
    have h1 := congrFun h 1
    simp at h1
    exact absurd h1 (by linarith)
  have hval := hS.2 ![S 0 1, -(S 0 0)] hx2
  have hval' : 0 < S 0 0 * det2 S := by
    have he : Matrix.dotProduct (star ![S 0 1, -(S 0 0)]) (S *ᵥ ![S 0 1, -(S 0 0)])
        = S 0 0 * det2 S := by
      simp [Matrix.dotProduct, Matrix.mulVec, Fin.sum_univ_two, det2]
      ring
    rw [he] at hval
    exact hval
  nlinarith

lemma inv2_mul_self {S : Mat2} (h : det2 S ≠ 0) : inv2 S * S = 1 := by
  ext i j
  fin_cases i <;> fin_cases j <;>
    simp [inv2, det2, Matrix.mul_apply, Fin.sum_univ_two, Matrix.one_apply] <;>
    field_simp [det2] at h ⊢ <;> ring

/-- Joseph-form identity: with the exact gain (K·S = P·Hᵀ), the updated
covariance (I − K·H)·P equals (I − K·H)·P·(I − K·H)ᵀ + K·R·Kᵀ. -/
lemma joseph (P : Mat4) (K : Mat42) (R : Mat2)
    (hKS : K * (H * P * Hᵀ + R) = P * Hᵀ) :
    (1 - K * H) * P = (1 - K * H) * P * (1 - K * H)ᵀ + K * R * Kᵀ := by
  have key : K * (H * (P * (Hᵀ * Kᵀ))) + K * (R * Kᵀ) = P * (Hᵀ * Kᵀ) := by
    have h1 := congrArg (· * Kᵀ) hKS
    simp only at h1
    rw [Matrix.mul_add] at h1
    rw [Matrix.add_mul] at h1
    simp only [Matrix.mul_assoc] at h1
    exact h1
  have key2 : K * (H * (P * (Hᵀ * Kᵀ))) = P * (Hᵀ * Kᵀ) - K * (R * Kᵀ) :=
    eq_sub_of_add_eq key
  simp only [Matrix.transpose_sub, Matrix.transpose_one, Matrix.transpose_mul,
    Matrix.mul_sub, Matrix.sub_mul, Matrix.one_mul, Matrix.mul_one, Matrix.mul_assoc, key2]
  abel

lemma GoodFilter.predict {f : KalmanFilter} (hf : GoodFilter f) : GoodFilter f.predict := by
  obtain ⟨hq, hr, hP⟩ := hf
  exact ⟨hq, hr, (posSemidef_conj hP A).add (posSemidef_smul_one hq)⟩

lemma innovationCov_posDef {f : KalmanFilter} (hf : GoodFilter f) :
    f.innovationCov.PosDef := by
  obtain ⟨hq, hr, hP⟩ := hf
  exact Matrix.PosDef.posSemidef_add (posSemidef_conj hP H) (posDef_smul_one hr)

lemma GoodFilter.update {f : KalmanFilter} (hf : GoodFilter f) (z : Fin 2 → ℚ) :
    ∃ g, f.update z = some g ∧ GoodFilter g := by
  obtain ⟨hq, hr, hP⟩ := hf
  by_cases hinit : f.initialized = false
  · refine ⟨{ f with x := ![z 0, z 1, 0, 0], initialized := true }, ?_, hq, hr, hP⟩
    rw [KalmanFilter.update, if_pos hinit]
  · have hS : f.innovationCov.PosDef := innovationCov_posDef ⟨hq, hr, hP⟩
    have hdet : det2 f.innovationCov ≠ 0 := ne_of_gt (posDef_det2_pos hS)
    refine ⟨{ f with x := f.x + f.gain *ᵥ (z - H *ᵥ f.x),
                     P := (1 - f.gain * H) * f.P, initialized := true }, ?_, hq, hr, ?_⟩
    · rw [KalmanFilter.update, if_neg hinit, if_neg hdet]
    · have hKS : f.gain * (H * f.P * Hᵀ + f.R) = f.P * Hᵀ := by
        have hic : H * f.P * Hᵀ + f.R = f.innovationCov := rfl
        rw [KalmanFilter.gain, hic, Matrix.mul_assoc, inv2_mul_self hdet, Matrix.mul_one]
      have hJ := joseph f.P f.gain f.R hKS
      show ((1 - f.gain * H) * f.P).PosSemidef
      rw [hJ]
      refine (posSemidef_conj hP _).add ?_
      exact posSemidef_conj (posSemidef_smul_one (le_of_lt hr)) _

lemma GoodFilter.mkNew {q r : ℚ} (hq : 0 ≤ q) (hr : 0 < r) :
    GoodFilter (KalmanFilter.mkNew q r) :=
  ⟨hq, hr, Matrix.PosSemidef.one⟩

lemma runOps_good {f : KalmanFilter} (hf : GoodFilter f) (ops : List FilterOp) :
    ∃ g, runOps f ops = some g ∧ GoodFilter g := by
  induction ops generalizing f with
  | nil => exact ⟨f, rfl, hf⟩
  | cons op ops ih =>
    cases op with
    | predictOp =>
      obtain ⟨g, hg, hgood⟩ := ih hf.predict
      exact ⟨g, by simpa [runOps, applyOp] using hg, hgood⟩
    | updateOp z =>
      obtain ⟨g1, hg1, hgood1⟩ := hf.update z
      obtain ⟨g, hg, hgood⟩ := ih hgood1
      refine ⟨g, ?_, hgood⟩
      simpa [runOps, applyOp, hg1] using hg

lemma posSemidef_isSymm {M : Mat4} (h : M.PosSemidef) : M.IsSymm := by
  have h1 := h.1
  rwa [Matrix.IsHermitian, Matrix.conjTranspose_eq_transpose_of_trivial] at h1

lemma posSemidef_diag_nonneg {M : Mat4} (h : M.PosSemidef) (i : Fin 4) : 0 ≤ M i i := by
  have h2 := h.2 (Pi.single i 1)
  simpa [Matrix.single_dotProduct, Matrix.mulVec_single, Pi.star_apply, star_trivial] using h2

/-! ## Literal-matrix evaluation lemmas and sample-scenario computations -/

lemma A_transpose_lit : Aᵀ = !![1, 0, 0, 0; 0, 1, 0, 0; 1, 0, 1, 0; 0, 1, 0, 1] := by
  ext i j
  fin_cases i <;> fin_cases j <;>
    simp [A, Matrix.vecHead, Matrix.vecTail, Function.comp]

lemma H_transpose_lit : Hᵀ = !![1, 0; 0, 1; 0, 0; 0, 0] := by
  ext i j
  fin_cases i <;> fin_cases j <;>
    simp [H, Matrix.vecHead, Matrix.vecTail, Function.comp]

lemma smul_one_lit4 (q : ℚ) :
    q • (1 : Mat4) = !![q, 0, 0, 0; 0, q, 0, 0; 0, 0, q, 0; 0, 0, 0, q] := by
  ext i j
  fin_cases i <;> fin_cases j <;>
    simp [Matrix.one_apply, Matrix.vecHead, Matrix.vecTail, Function.comp]

lemma smul_one_lit2 (q : ℚ) : q • (1 : Mat2) = !![q, 0; 0, q] := by
  ext i j
  fin_cases i <;> fin_cases j <;>
    simp [Matrix.one_apply, Matrix.vecHead, Matrix.vecTail, Function.comp]

lemma sampleStep1_eq : sampleStep1 = some sampleFilter1 := by
  have hinit : (sampleFilter0.predict).initialized = false := rfl
  rw [sampleStep1, KalmanFilter.process, KalmanFilter.update, if_pos hinit]
  refine congrArg some ?_
  refine KalmanFilter.ext rfl rfl ?_ ?_ rfl
  · funext i
    fin_cases i <;> simp [z1, sampleFilter1]
  · show (sampleFilter0.predict).P = sampleFilter1.P
    have h0 : (sampleFilter0.predict).P = A * 1 * Aᵀ + (1/1000 : ℚ) • 1 := rfl
    rw [h0, A_transpose_lit, smul_one_lit4, Matrix.mul_one]
    ext i j
    fin_cases i <;> fin_cases j <;>
      norm_num [A, sampleP1, sampleFilter1, Matrix.mul_apply, Fin.sum_univ_four,
        Matrix.vecHead, Matrix.vecTail, Function.comp]

lemma samplePredict2_P : (sampleFilter1.predict).P = sampleP2 := by
  have h0 : (sampleFilter1.predict).P = A * sampleP1 * Aᵀ + (1/1000 : ℚ) • 1 := rfl
  rw [h0, A_transpose_lit, smul_one_lit4]
  ext i j
  fin_cases i <;> fin_cases j <;>
    norm_num [A, sampleP1, sampleP2, Matrix.mul_apply, Fin.sum_univ_four,
      Matrix.vecHead, Matrix.vecTail, Function.comp]

lemma samplePredict2_x : (sampleFilter1.predict).x = ![190760/10000, 728777/10000, 0, 0] := by
  have h0 : (sampleFilter1.predict).x = A *ᵥ sampleFilter1.x := rfl
  rw [h0]
  funext i
  fin_cases i <;>
    norm_num [A, sampleFilter1, Matrix.mulVec, Matrix.dotProduct, Fin.sum_univ_four,
      Matrix.vecHead, Matrix.vecTail, Function.comp]

lemma sampleS_lit : (sampleFilter1.predict).innovationCov = !![1251/250, 0; 0, 1251/250] := by
  have h0 : (sampleFilter1.predict).innovationCov
      = H * (sampleFilter1.predict).P * Hᵀ + (1/1000 : ℚ) • 1 := rfl
  rw [h0, samplePredict2_P, H_transpose_lit, smul_one_lit2]
  ext i j
  fin_cases i <;> fin_cases j <;>
    norm_num [H, sampleP2, Matrix.mul_apply, Fin.sum_univ_four, Fin.sum_univ_two,
      Matrix.vecHead, Matrix.vecTail, Function.comp]

lemma sampleInv2_lit : inv2 !![1251/250, 0; 0, 1251/250] = !![250/1251, 0; 0, 250/1251] := by
  rw [inv2]
  ext i j
  fin_cases i <;> fin_cases j <;>
    norm_num [det2, Matrix.vecHead, Matrix.vecTail, Function.comp]

lemma sampleGain_lit : (sampleFilter1.predict).gain
    = !![5003/5004, 0; 0, 5003/5004; 2001/5004, 0; 0, 2001/5004] := by
  rw [KalmanFilter.gain, sampleS_lit, sampleInv2_lit, samplePredict2_P, H_transpose_lit]
  ext i j
  fin_cases i <;> fin_cases j <;>
    norm_num [sampleP2, Matrix.mul_apply, Fin.sum_univ_four, Fin.sum_univ_two,
      Matrix.vecHead, Matrix.vecTail, Function.comp]

lemma sampleStep2_pos : sampleStep2.map KalmanFilter.pos
    = some (954568043/50040000, 3646805111/50040000) := by
  rw [sampleStep2, sampleStep1_eq]
  show ((sampleFilter1.process z2)).map KalmanFilter.pos = _
  rw [KalmanFilter.process, KalmanFilter.update]
  rw [if_neg (by simp [sampleFilter1, KalmanFilter.predict])]
  rw [if_neg (by rw [sampleS_lit]; norm_num [det2, Matrix.vecHead, Matrix.vecTail])]
  show some (KalmanFilter.pos _) = _
  refine congrArg some ?_
  refine Prod.ext ?_ ?_
  · show ((sampleFilter1.predict).x
        + (sampleFilter1.predict).gain *ᵥ (z2 - H *ᵥ (sampleFilter1.predict).x)) 0 = _
    rw [samplePredict2_x, sampleGain_lit]
    norm_num [z2, H, Matrix.mulVec, Matrix.dotProduct, Fin.sum_univ_two, Fin.sum_univ_four,
      Matrix.vecHead, Matrix.vecTail, Function.comp]
  · show ((sampleFilter1.predict).x
        + (sampleFilter1.predict).gain *ᵥ (z2 - H *ᵥ (sampleFilter1.predict).x)) 1 = _
    rw [samplePredict2_x, sampleGain_lit]
    norm_num [z2, H, Matrix.mulVec, Matrix.dotProduct, Fin.sum_univ_two, Fin.sum_univ_four,
      Matrix.vecHead, Matrix.vecTail, Function.comp]

lemma sampleStep2_exists : ∃ kf2, sampleFilter1.process z2 = some kf2 ∧
    kf2.x 0 = 954568043/50040000 ∧ kf2.x 1 = 3646805111/50040000 := by
  have h := sampleStep2_pos
  rw [sampleStep2, sampleStep1_eq] at h
  rcases hk : sampleFilter1.process z2 with _ | kf2
  · rw [show (some sampleFilter1).bind (fun f => f.process z2) = sampleFilter1.process z2
        from rfl, hk] at h
    simp at h
  · rw [show (some sampleFilter1).bind (fun f => f.process z2) = sampleFilter1.process z2
        from rfl, hk] at h
    simp only [Option.map_some', Option.some.injEq, KalmanFilter.pos, Prod.mk.injEq] at h
    exact ⟨kf2, rfl, h.1, h.2⟩

/-! ## Service-level helper lemmas -/

/-- Full characterisation of a successful `ingest_telemetry` call. -/
lemma ingest_success_spec (st : IngestState) (t : TelemetryData) (now : ℚ)
    (vnum : String) (kf1 : KalmanFilter)
    (hdb : st.db t.vehicle_id = some vnum)
    (hkf : (lookupOrNewFilter st t.vehicle_id).process ![t.latitude, t.longitude] = some kf1) :
    ingest_telemetry st t now =
      (.ok ⟨st.postgres.length, t.timestamp.getD now⟩,
       { db := st.db
         kf_storage := fun v => if v = t.vehicle_id then some kf1 else st.kf_storage v
         postgres := st.postgres ++
           [⟨t.vehicle_id, kf1.x 0, kf1.x 1, t.speed, t.direction, t.accuracy,
             t.altitude, t.timestamp.getD now⟩]
         influx := st.influx ++ [⟨t.vehicle_id, t.latitude, t.longitude, t.timestamp.getD now⟩]
         redisCache := fun v => if v = t.vehicle_id then
             some ⟨t.latitude, t.longitude, t.speed, t.direction, t.timestamp.getD now, vnum⟩
           else st.redisCache v
         published := st.published ++
           [⟨Channel.vehicle t.vehicle_id, t.vehicle_id,
             ⟨t.latitude, t.longitude, t.speed, t.direction, t.timestamp.getD now, vnum⟩⟩,
            ⟨Channel.all, t.vehicle_id,
             ⟨t.latitude, t.longitude, t.speed, t.direction, t.timestamp.getD now, vnum⟩⟩] }) := by
  simp only [ingest_telemetry, hdb, hkf]

/-- If pydantic validation succeeds, every required field was present and
the coordinate ranges hold. -/
lemma validateTelemetry_ok {raw : RawTelemetry} {t : TelemetryData}
    (h : validateTelemetry raw = .ok t) :
    raw.vehicle_id = some t.vehicle_id ∧ raw.latitude = some t.latitude ∧
    raw.longitude = some t.longitude ∧ -90 ≤ t.latitude ∧ t.latitude ≤ 90 ∧
    -180 ≤ t.longitude ∧ t.longitude ≤ 180 := by
  obtain ⟨v, la, lo, sp, di, ac, al, ce, fu, ts⟩ := raw
  rcases v with _ | vid
  · simp [validateTelemetry] at h
  rcases la with _ | lat
  · simp [validateTelemetry] at h
  rcases lo with _ | lon
  · simp [validateTelemetry] at h
  simp only [validateTelemetry] at h
  by_cases h4 : lat < -90 ∨ 90 < lat
  · rw [if_pos h4] at h
    exact absurd h (by simp)
  rw [if_neg h4] at h
  by_cases h5 : lon < -180 ∨ 180 < lon
  · rw [if_pos h5] at h
    exact absurd h (by simp)
  rw [if_neg h5] at h
  by_cases h6 : speedOk sp = false
  · rw [if_pos h6] at h
    exact absurd h (by simp)
  rw [if_neg h6] at h
  by_cases h7 : directionOk di = false
  · rw [if_pos h7] at h
    exact absurd h (by simp)
  rw [if_neg h7] at h
  by_cases h8 : fuelOk fu = false
  · rw [if_pos h8] at h
    exact absurd h (by simp)
  rw [if_neg h8] at h
  rw [Except.ok.injEq] at h
  subst h
  push_neg at h4 h5
  exact ⟨rfl, rfl, rfl, h4.1, h4.2, h5.1, h5.2⟩

/-- The `broadcast` loop delivers exactly to the healthy connections, in
list order. -/
lemma broadcast_foldl (msg : String) (conns : List Subscriber) :
    ∀ acc : List (ℕ × String),
      List.foldl (fun delivered c => if c.healthy then delivered ++ [(c.id, msg)] else delivered)
        acc conns
      = acc ++ (conns.filter (fun c => c.healthy)).map (fun c => (c.id, msg)) := by
  induction conns with
  | nil => intro acc; simp
  | cons c cs ih =>
    intro acc
    by_cases hc : c.healthy
    · simp only [List.foldl_cons, if_pos hc, ih, List.filter_cons_of_pos hc, List.map_cons,
        List.append_assoc, List.singleton_append]
    · simp only [List.foldl_cons, if_neg hc, ih,
        List.filter_cons_of_neg (by simpa using hc)]

/-- The bulk loop never touches the database handle, the filter registry,
the Redis cache or the pub/sub channels. -/
lemma bulk_foldl_state (now : ℚ) (items : List TelemetryData) :
    ∀ acc : ℕ × List String × IngestState,
      (List.foldl (bulkStep now) acc items).2.2.db = acc.2.2.db ∧
      (List.foldl (bulkStep now) acc items).2.2.kf_storage = acc.2.2.kf_storage ∧
      (List.foldl (bulkStep now) acc items).2.2.redisCache = acc.2.2.redisCache ∧
      (List.foldl (bulkStep now) acc items).2.2.published = acc.2.2.published := by
  induction items with
  | nil => intro acc; exact ⟨rfl, rfl, rfl, rfl⟩
  | cons t ts ih =>
    intro acc
    rcases hdb : acc.2.2.db t.vehicle_id with _ | w <;>
      simp only [List.foldl_cons, bulkStep, hdb] <;>
      exact ih _

/-- The bulk loop counts exactly the items whose vehicle exists and
reports one not-found error per item whose vehicle does not, in order. -/
lemma bulk_foldl_count (now : ℚ) (items : List TelemetryData) :
    ∀ (count : ℕ) (errors : List String) (st : IngestState),
      (List.foldl (bulkStep now) (count, errors, st) items).1
        = count + (items.filter (fun t => (st.db t.vehicle_id).isSome)).length ∧
      (List.foldl (bulkStep now) (count, errors, st) items).2.1
        = errors ++ (items.filter (fun t => (st.db t.vehicle_id).isNone)).map
            (fun t => notFoundMsg t.vehicle_id) := by
  induction items with
  | nil => intro count errors st; simp
  | cons t ts ih =>
    intro count errors st
    rcases hdb : st.db t.vehicle_id with _ | w
    · have hstep : bulkStep now (count, errors, st) t
          = (count, errors ++ [notFoundMsg t.vehicle_id], st) := by
        simp only [bulkStep, hdb]
      rw [List.foldl_cons, hstep]
      obtain ⟨hc, he⟩ := ih count (errors ++ [notFoundMsg t.vehicle_id]) st
      constructor
      · rw [hc, List.filter_cons_of_neg (by simp [hdb])]
      · rw [he, List.filter_cons_of_pos (by simp [hdb]), List.map_cons, List.append_assoc,
          List.singleton_append]
    · have hstep : bulkStep now (count, errors, st) t
          = (count + 1, errors,
             { st with
                postgres := st.postgres ++
                  [⟨t.vehicle_id, t.latitude, t.longitude, t.speed, t.direction, t.accuracy,
                    t.altitude, t.timestamp.getD now⟩],
                influx := st.influx ++
                  [⟨t.vehicle_id, t.latitude, t.longitude, t.timestamp.getD now⟩] }) := by
        simp only [bulkStep, hdb]
      rw [List.foldl_cons, hstep]
      obtain ⟨hc, he⟩ := ih (count + 1) errors _
      constructor
      · rw [hc, List.filter_cons_of_pos (by simp [hdb])]
        simp [Nat.add_comm, Nat.add_assoc, Nat.add_left_comm]
      · rw [he, List.filter_cons_of_neg (by simp [hdb])]

/-! ## Claim theorems -/

/-- Claim C1: for every filter that has absorbed no prior measurement
(`initialized = false`), `process(measurement)` succeeds and returns exactly
the measurement's position with both velocity components left at zero,
through the initialization branch that bypasses the gain computation. -/
theorem first_process_returns_measurement (f : KalmanFilter) (z : Fin 2 → ℚ)
    (h : f.initialized = false) :
    ∃ g, f.process z = some g ∧ g.pos = (z 0, z 1) ∧ g.x 2 = 0 ∧ g.x 3 = 0 ∧
      g.initialized = true := by
  have hinit : (f.predict).initialized = false := h
  refine ⟨{ f.predict with x := ![z 0, z 1, 0, 0], initialized := true }, ?_, rfl, rfl, rfl, rfl⟩
  rw [KalmanFilter.process, KalmanFilter.update, if_pos hinit]

/-- Witness for C1: the fresh default filter at a concrete measurement. -/
theorem first_process_returns_measurement_witness :
    (KalmanFilter.mkNew (1/1000) (1/1000)).initialized = false ∧
    (∃ g, (KalmanFilter.mkNew (1/1000) (1/1000)).process ![19, 72] = some g ∧
      g.pos = ((![19, 72] : Fin 2 → ℚ) 0, (![19, 72] : Fin 2 → ℚ) 1) ∧
      g.x 2 = 0 ∧ g.x 3 = 0 ∧ g.initialized = true) :=
  ⟨rfl, first_process_returns_measurement (KalmanFilter.mkNew (1/1000) (1/1000)) ![19, 72] rfl⟩

/-- Claim C2, counterexample: at a concrete initialized filter state whose
innovation covariance S is exactly singular, `update` raises (the
`np.linalg.inv` call fails, modelled `none`) — it does not skip the
correction, keep the predicted state, and acknowledge success as the claim
asserts.  The code contains no degeneracy check at all. -/
theorem singular_update_errors_not_skips : degenerateFilter.update ![0, 0] = none := by
  have hS : degenerateFilter.innovationCov = !![0, 0; 0, 0] := by
    have h0 : degenerateFilter.innovationCov
        = H * degenerateFilter.P * Hᵀ + (1/1000 : ℚ) • 1 := rfl
    rw [h0, H_transpose_lit, smul_one_lit2]
    ext i j
    fin_cases i <;> fin_cases j <;>
      norm_num [H, degenerateFilter, Matrix.mul_apply, Fin.sum_univ_four, Fin.sum_univ_two,
        Matrix.vecHead, Matrix.vecTail, Function.comp]
  rw [KalmanFilter.update, if_neg (by simp [degenerateFilter]),
    if_pos (by rw [hS]; norm_num [det2, Matrix.vecHead, Matrix.vecTail, Function.comp])]

/-- Claim C2 (amended): `update` on an initialized filter has no
degeneracy-skip path: it fails (raises out of `np.linalg.inv`) exactly when
the innovation covariance is singular, and otherwise always applies the
correction. -/
theorem update_fails_iff_singular (f : KalmanFilter) (z : Fin 2 → ℚ)
    (h : f.initialized = true) :
    (f.update z = none ↔ det2 f.innovationCov = 0) := by
  rw [KalmanFilter.update, if_neg (by simp [h])]
  by_cases hdet : det2 f.innovationCov = 0
  · simp [hdet]
  · simp [hdet]

/-- Witness for C2's amended theorem at a concrete initialized filter. -/
theorem update_fails_iff_singular_witness :
    degenerateFilter.initialized = true ∧
    (degenerateFilter.update ![1, 1] = none ↔ det2 degenerateFilter.innovationCov = 0) :=
  ⟨rfl, update_fails_iff_singular degenerateFilter ![1, 1] rfl⟩

/-- Claim C3, counterexample: after the two sample ingestions for vehicle 7,
the Redis cache holds the RAW latitude 19.0761 of the second record, while
the filter's smoothed latitude for that same call is 954568043/50040000,
which differs — so the cached/broadcast position is not the smoothed one. -/
theorem ingest_cache_not_smoothed :
    (stateAfter2.redisCache 7).map (fun loc => loc.latitude) = some (190761/10000) ∧
    ((stateAfter2.published.getLast?).map (fun e => e.data.latitude)) = some (190761/10000) ∧
    (stateAfter2.kf_storage 7).map (fun kf => kf.x 0) = some (954568043/50040000) ∧
    (954568043/50040000 : ℚ) ≠ 190761/10000 := by
  obtain ⟨kf2, hk2, hx0, hx1⟩ := sampleStep2_exists
  have h1 := ingest_success_spec sampleIngestState sampleT1 0 "MH-01" sampleFilter1 rfl
    sampleStep1_eq
  have hst1 : stateAfter1 = (ingest_telemetry sampleIngestState sampleT1 0).2 := rfl
  rw [h1] at hst1
  have hdb1 : stateAfter1.db 7 = some "MH-01" := by
    rw [hst1]
    rfl
  have hkf1 : stateAfter1.kf_storage 7 = some sampleFilter1 := by
    rw [hst1]
    simp [sampleT1]
  have hlookup : lookupOrNewFilter stateAfter1 7 = sampleFilter1 := by
    rw [lookupOrNewFilter, hkf1]
  have hkf2 : (lookupOrNewFilter stateAfter1 sampleT2.vehicle_id).process
      ![sampleT2.latitude, sampleT2.longitude] = some kf2 := by
    show (lookupOrNewFilter stateAfter1 7).process ![sampleT2.latitude, sampleT2.longitude]
      = some kf2
    rw [hlookup]
    exact hk2
  have h2 := ingest_success_spec stateAfter1 sampleT2 1 "MH-01" kf2 hdb1 hkf2
  have hst2 : stateAfter2 = (ingest_telemetry stateAfter1 sampleT2 1).2 := rfl
  rw [h2] at hst2
  refine ⟨?_, ?_, ?_, by norm_num⟩
  · rw [hst2]
    simp [sampleT2]
  · rw [hst2]
    simp [sampleT2]
  · rw [hst2]
    simp [sampleT2, hx0]

/-- Claim C3 (amended): on a successful single-record ingestion the Redis
cache entry and both published payloads carry the RAW measured position
(with speed/heading metadata passed through unchanged), equal to each
other; only the durable PostgreSQL row receives the smoothed position
returned by the entity's filter for that call. -/
theorem ingest_routes_raw_to_cache_smoothed_to_db (st : IngestState) (t : TelemetryData)
    (now : ℚ) (vnum : String) (kf1 : KalmanFilter)
    (hdb : st.db t.vehicle_id = some vnum)
    (hkf : (lookupOrNewFilter st t.vehicle_id).process ![t.latitude, t.longitude] = some kf1) :
    (ingest_telemetry st t now).2.redisCache t.vehicle_id
      = some ⟨t.latitude, t.longitude, t.speed, t.direction, t.timestamp.getD now, vnum⟩ ∧
    (ingest_telemetry st t now).2.published = st.published ++
      [⟨Channel.vehicle t.vehicle_id, t.vehicle_id,
        ⟨t.latitude, t.longitude, t.speed, t.direction, t.timestamp.getD now, vnum⟩⟩,
       ⟨Channel.all, t.vehicle_id,
        ⟨t.latitude, t.longitude, t.speed, t.direction, t.timestamp.getD now, vnum⟩⟩] ∧
    (ingest_telemetry st t now).2.postgres = st.postgres ++
      [⟨t.vehicle_id, kf1.x 0, kf1.x 1, t.speed, t.direction, t.accuracy, t.altitude,
        t.timestamp.getD now⟩] ∧
    (ingest_telemetry st t now).2.kf_storage t.vehicle_id = some kf1 := by
  rw [ingest_success_spec st t now vnum kf1 hdb hkf]
  exact ⟨by simp, rfl, rfl, by simp⟩

/-- Witness for C3's amended theorem: the first sample ingestion. -/
theorem ingest_routes_raw_witness :
    sampleIngestState.db sampleT1.vehicle_id = some "MH-01" ∧
    (lookupOrNewFilter sampleIngestState sampleT1.vehicle_id).process
      ![sampleT1.latitude, sampleT1.longitude] = some sampleFilter1 ∧
    ((ingest_telemetry sampleIngestState sampleT1 0).2.redisCache sampleT1.vehicle_id
      = some ⟨sampleT1.latitude, sampleT1.longitude, sampleT1.speed, sampleT1.direction,
              sampleT1.timestamp.getD 0, "MH-01"⟩ ∧
     (ingest_telemetry sampleIngestState sampleT1 0).2.published
       = sampleIngestState.published ++
        [⟨Channel.vehicle sampleT1.vehicle_id, sampleT1.vehicle_id,
          ⟨sampleT1.latitude, sampleT1.longitude, sampleT1.speed, sampleT1.direction,
           sampleT1.timestamp.getD 0, "MH-01"⟩⟩,
         ⟨Channel.all, sampleT1.vehicle_id,
          ⟨sampleT1.latitude, sampleT1.longitude, sampleT1.speed, sampleT1.direction,
           sampleT1.timestamp.getD 0, "MH-01"⟩⟩] ∧
     (ingest_telemetry sampleIngestState sampleT1 0).2.postgres
       = sampleIngestState.postgres ++
        [⟨sampleT1.vehicle_id, sampleFilter1.x 0, sampleFilter1.x 1, sampleT1.speed,
          sampleT1.direction, sampleT1.accuracy, sampleT1.altitude, sampleT1.timestamp.getD 0⟩] ∧
     (ingest_telemetry sampleIngestState sampleT1 0).2.kf_storage sampleT1.vehicle_id
       = some sampleFilter1) :=
  ⟨rfl, sampleStep1_eq,
   ingest_routes_raw_to_cache_smoothed_to_db sampleIngestState sampleT1 0 "MH-01" sampleFilter1
     rfl sampleStep1_eq⟩

/-- Claim C4, counterexample: a successful bulk item undergoes neither the
filter lookup/process step nor the cache/broadcast publication that
single-record ingestion performs: after bulk-ingesting the sample record the
registry, cache, and pub/sub history are all untouched (while the same
record through single ingestion creates the filter). -/
theorem bulk_skips_filter_cache_broadcast :
    (ingest_bulk_telemetry sampleIngestState [sampleT1] 0).1.ingested_count = 1 ∧
    (ingest_bulk_telemetry sampleIngestState [sampleT1] 0).2.kf_storage 7 = none ∧
    (ingest_bulk_telemetry sampleIngestState [sampleT1] 0).2.redisCache 7 = none ∧
    (ingest_bulk_telemetry sampleIngestState [sampleT1] 0).2.published = [] ∧
    (ingest_telemetry sampleIngestState sampleT1 0).2.kf_storage 7 = some sampleFilter1 := by
  refine ⟨rfl, rfl, rfl, rfl, ?_⟩
  rw [ingest_success_spec sampleIngestState sampleT1 0 "MH-01" sampleFilter1 rfl sampleStep1_eq]
  simp [sampleT1]

/-- Claim C4 (amended): bulk ingestion iterates per item with failure
isolation — a not-found item only appends its error string and the loop
continues — and the aggregate count equals the number of items whose
vehicle exists, with one error per missing vehicle, in order; but the items
do NOT undergo the filter/cache/broadcast steps of single-record ingestion:
the filter registry, the Redis cache and the pub/sub history are unchanged
(only raw PostgreSQL/InfluxDB rows are written). -/
theorem bulk_isolates_failures_and_skips_fusion (st : IngestState)
    (items : List TelemetryData) (now : ℚ) :
    (ingest_bulk_telemetry st items now).1.ingested_count
      = (items.filter (fun t => (st.db t.vehicle_id).isSome)).length ∧
    (ingest_bulk_telemetry st items now).1.errors
      = (items.filter (fun t => (st.db t.vehicle_id).isNone)).map
          (fun t => notFoundMsg t.vehicle_id) ∧
    (ingest_bulk_telemetry st items now).1.total_records = items.length ∧
    (ingest_bulk_telemetry st items now).2.kf_storage = st.kf_storage ∧
    (ingest_bulk_telemetry st items now).2.redisCache = st.redisCache ∧
    (ingest_bulk_telemetry st items now).2.published = st.published := by
  obtain ⟨hc, he⟩ := bulk_foldl_count now items 0 [] st
  obtain ⟨hdb, hkf, hrc, hpub⟩ := bulk_foldl_state now items (0, [], st)
  exact ⟨by simpa using hc, by simpa using he, rfl, hkf, hrc, hpub⟩

/-- Claim C5, counterexample: resetting an entity with no existing filter
is not a no-op success — the endpoint answers HTTP 404. -/
theorem reset_unknown_is_404 :
    reset_filter emptyFusionState "veh-7" = (.error 404, emptyFusionState) := rfl

/-- Claim C5 (amended): resetting an existing entity discards its filter
and the next get-or-create produces a new, uninitialized filter; but
resetting an unknown entity_id raises a 404 error (leaving the registry
unchanged), not a no-op success. -/
theorem reset_discards_filter_or_404 (st : FusionState) (vid : String) :
    ((st vid).isSome = true →
      (reset_filter st vid).1 = .ok vid ∧
      (reset_filter st vid).2 vid = none ∧
      (getOrCreateFilter (reset_filter st vid).2 vid).1
        = KalmanFilter.mkNew (1/10000) (1/100) ∧
      (getOrCreateFilter (reset_filter st vid).2 vid).1.initialized = false) ∧
    (st vid = none → reset_filter st vid = (.error 404, st)) := by
  constructor
  · intro h
    rw [reset_filter, if_pos h]
    refine ⟨rfl, by simp, ?_, ?_⟩ <;> simp [getOrCreateFilter, KalmanFilter.mkNew]
  · intro h
    rw [reset_filter, if_neg (by simp [h])]

/-- Witness for C5's amended theorem: one state holding a filter for
"veh-7", and the empty state. -/
theorem reset_discards_filter_or_404_witness :
    ((oneFilterState "veh-7").isSome = true ∧
      (reset_filter oneFilterState "veh-7").1 = .ok "veh-7" ∧
      (reset_filter oneFilterState "veh-7").2 "veh-7" = none ∧
      (getOrCreateFilter (reset_filter oneFilterState "veh-7").2 "veh-7").1
        = KalmanFilter.mkNew (1/10000) (1/100) ∧
      (getOrCreateFilter (reset_filter oneFilterState "veh-7").2 "veh-7").1.initialized
        = false) ∧
    (emptyFusionState "veh-9" = none ∧
      reset_filter emptyFusionState "veh-9" = (.error 404, emptyFusionState)) := by
  have h1 : (oneFilterState "veh-7").isSome = true := by simp [oneFilterState]
  have h2 : emptyFusionState "veh-9" = none := rfl
  exact ⟨⟨h1, (reset_discards_filter_or_404 oneFilterState "veh-7").1 h1⟩,
         ⟨h2, (reset_discards_filter_or_404 emptyFusionState "veh-9").2 h2⟩⟩

/-- Claim C6: a telemetry body with latitude outside [−90, 90], longitude
outside [−180, 180], or a missing required field is rejected by validation
with a `ValidationError` before the handler runs: no filter, cache,
broadcast (or any other) state effect occurs. -/
theorem invalid_telemetry_rejected_before_effects (st : IngestState) (raw : RawTelemetry)
    (now : ℚ)
    (h : raw.vehicle_id = none ∨ raw.latitude = none ∨ raw.longitude = none ∨
      (∃ l, raw.latitude = some l ∧ (l < -90 ∨ 90 < l)) ∨
      (∃ l, raw.longitude = some l ∧ (l < -180 ∨ 180 < l))) :
    ∃ e, ingest_raw st raw now = (.error (.inl e), st) := by
  have hval : ∃ e, validateTelemetry raw = .error e := by
    rcases hv : validateTelemetry raw with e | t
    · exact ⟨e, rfl⟩
    · obtain ⟨hid, hlat, hlon, h1, h2, h3, h4⟩ := validateTelemetry_ok hv
      rcases h with h | h | h | ⟨l, hl, hr⟩ | ⟨l, hl, hr⟩
      · rw [h] at hid
        cases hid
      · rw [h] at hlat
        cases hlat
      · rw [h] at hlon
        cases hlon
      · rw [hl] at hlat
        rw [Option.some.injEq] at hlat
        rcases hr with hr | hr
        · rw [hlat] at hr
          linarith
        · rw [hlat] at hr
          linarith
      · rw [hl] at hlon
        rw [Option.some.injEq] at hlon
        rcases hr with hr | hr
        · rw [hlon] at hr
          linarith
        · rw [hlon] at hr
          linarith
  obtain ⟨e, he⟩ := hval
  exact ⟨e, by rw [ingest_raw, he]⟩

/-- Witness for C6: a body with latitude 100 is rejected, state untouched. -/
theorem invalid_telemetry_rejected_witness :
    (badRaw.vehicle_id = none ∨ badRaw.latitude = none ∨ badRaw.longitude = none ∨
      (∃ l, badRaw.latitude = some l ∧ (l < -90 ∨ 90 < l)) ∨
      (∃ l, badRaw.longitude = some l ∧ (l < -180 ∨ 180 < l))) ∧
    (∃ e, ingest_raw sampleIngestState badRaw 0 = (.error (.inl e), sampleIngestState)) := by
  have h : badRaw.vehicle_id = none ∨ badRaw.latitude = none ∨ badRaw.longitude = none ∨
      (∃ l, badRaw.latitude = some l ∧ (l < -90 ∨ 90 < l)) ∨
      (∃ l, badRaw.longitude = some l ∧ (l < -180 ∨ 180 < l)) :=
    Or.inr (Or.inr (Or.inr (Or.inl ⟨100, rfl, Or.inr (by norm_num)⟩)))
  exact ⟨h, invalid_telemetry_rejected_before_effects sampleIngestState badRaw 0 h⟩

/-- Claim C7: from a freshly constructed filter with nonnegative process
noise and positive measurement noise (true of every constructor call in the
repository), any finite sequence of `predict`/`update` calls succeeds and
leaves the covariance P symmetric positive semidefinite — in particular
every diagonal entry stays nonnegative. -/
theorem covariance_psd_invariant (q r : ℚ) (ops : List FilterOp)
    (hq : 0 ≤ q) (hr : 0 < r) :
    ∃ g, runOps (KalmanFilter.mkNew q r) ops = some g ∧
      g.P.IsSymm ∧ g.P.PosSemidef ∧ ∀ i, 0 ≤ g.P i i := by
  obtain ⟨g, hg, hgood⟩ := runOps_good (GoodFilter.mkNew hq hr) ops
  exact ⟨g, hg, posSemidef_isSymm hgood.2.2, hgood.2.2,
    fun i => posSemidef_diag_nonneg hgood.2.2 i⟩

/-- Witness for C7 at the default noise parameters and a concrete
three-call sequence. -/
theorem covariance_psd_invariant_witness :
    (0 : ℚ) ≤ 1/1000 ∧ (0 : ℚ) < 1/1000 ∧
    ∃ g, runOps (KalmanFilter.mkNew (1/1000) (1/1000))
        [FilterOp.predictOp, FilterOp.updateOp ![1, 2], FilterOp.predictOp] = some g ∧
      g.P.IsSymm ∧ g.P.PosSemidef ∧ ∀ i, 0 ≤ g.P i i :=
  ⟨by norm_num, by norm_num,
    covariance_psd_invariant (1/1000) (1/1000)
      [FilterOp.predictOp, FilterOp.updateOp ![1, 2], FilterOp.predictOp]
      (by norm_num) (by norm_num)⟩

/-- Claim C8: on a fresh default filter (as the registry creates for
entity 7), processing (19.0760, 72.8777) returns exactly that position, and
a second `process` with (19.0761, 72.8778) returns a smoothed position
strictly between the two raw measurements in each coordinate, equal to
neither raw input. -/
theorem sample_scenario_exact_then_between :
    sampleStep1.map KalmanFilter.pos = some (190760/10000, 728777/10000) ∧
    sampleStep2.map KalmanFilter.pos = some (954568043/50040000, 3646805111/50040000) ∧
    (190760/10000 : ℚ) < 954568043/50040000 ∧
    (954568043/50040000 : ℚ) < 190761/10000 ∧
    (728777/10000 : ℚ) < 3646805111/50040000 ∧
    (3646805111/50040000 : ℚ) < 728778/10000 := by
  refine ⟨?_, sampleStep2_pos, by norm_num, by norm_num, by norm_num, by norm_num⟩
  rw [sampleStep1_eq]
  show some sampleFilter1.pos = _
  simp [KalmanFilter.pos, sampleFilter1]

/-- Claim C9, counterexample: broadcasting to a failing subscriber (id 1)
and a healthy one (id 2) delivers to the healthy one, but the failing
subscriber is NOT scheduled for removal — the connection list after the
loop still contains it, and nothing is logged (the except branch is
`pass`). -/
theorem broadcast_failure_not_removed :
    (broadcast [⟨1, false⟩, ⟨2, true⟩] "m").2 = [⟨1, false⟩, ⟨2, true⟩] ∧
    (broadcast [⟨1, false⟩, ⟨2, true⟩] "m").1 = [(2, "m")] :=
  ⟨rfl, rfl⟩

/-- Claim C9 (amended): a delivery failure on any subscriber is caught and
silently swallowed — the subscriber stays in the connection set — while
delivery still occurs to exactly the subscribers whose send succeeds, in
order. -/
theorem broadcast_swallows_failures_delivers_rest (conns : List Subscriber) (msg : String) :
    (broadcast conns msg).2 = conns ∧
    (broadcast conns msg).1
      = (conns.filter (fun c => c.healthy)).map (fun c => (c.id, msg)) := by
  refine ⟨rfl, ?_⟩
  rw [broadcast]
  simpa using broadcast_foldl msg conns []

/-- Claim C10: a telemetry record whose vehicle_id is not in the database
is rejected with a 404 before any effect: the returned state is exactly the
input state — no filter creation, no cache write, no publish. -/
theorem unknown_vehicle_rejected_before_effects (st : IngestState) (t : TelemetryData)
    (now : ℚ) (h : st.db t.vehicle_id = none) :
    ingest_telemetry st t now = (.error (.notFound t.vehicle_id), st) := by
  rw [ingest_telemetry, h]

/-- Witness for C10: vehicle 99 is not registered. -/
theorem unknown_vehicle_rejected_witness :
    sampleIngestState.db sampleT99.vehicle_id = none ∧
    ingest_telemetry sampleIngestState sampleT99 0
      = (.error (.notFound sampleT99.vehicle_id), sampleIngestState) :=
  ⟨rfl, unknown_vehicle_rejected_before_effects sampleIngestState sampleT99 0 rfl⟩

end VehicleTracking
